import Mathlib

/-!
Shallow embedding of the TradeReact routing/orchestration core.

The definitions below are translated from the repository sources:
  * `tradereact/agents/supervisor/supervisor.py`
      (`make_supervisor_node`, `analyst_supervisor_node`,
       `research_supervisor_node`, `risk_supervisor_node`);
  * `tradereact/graph/propagation.py` (`Propagator.create_initial_state`);
  * `tradereact/agents/analysts/*.py` (the `Command` each analyst worker
    returns on completion);
  * `tradereact/agents/utils/agent_states.py` (the state shape).

Python strings are modelled as Lean `String`; the ASCII fragment of
`str.strip` / `str.lower` / `str.startswith` / substring `in` is embedded
explicitly over the character list of the string (all names and markers the
routing core manipulates are ASCII).  Python `dict` patches returned by a
node (`Command.update`) are modelled by `StatePatch`, a record of optional
fields, applied by last-write-wins merge (`applyUpdate`); the `messages`
field is append-only (`add_messages`), so its patch entry concatenates.
A LangGraph `Command(goto=...)` is modelled by `RCommand`: `goto` is either
a single node, `END` (`Goto.halt`), or a parallel fan-out of `Send(node,
state)` pairs (`Goto.fanout`).
-/

/-- ASCII whitespace recognised by Python `str.strip` (the sources only ever
strip ASCII). -/
def isPySpace (c : Char) : Bool :=
  c = ' ' || c = '\t' || c = '\n' || c = '\r' || c = '\x0b' || c = '\x0c'

/-- Python `str.strip()`, ASCII fragment: drop whitespace from both ends. -/
def pyStrip (s : String) : String :=
  ⟨((s.data.dropWhile isPySpace).reverse.dropWhile isPySpace).reverse⟩

/-- Python `str.lower()`, ASCII fragment: lower-case each character. -/
def pyLower (s : String) : String :=
  ⟨s.data.map Char.toLower⟩

/-- Python `s.startswith(p)`. -/
def pyStartsWith (s p : String) : Bool :=
  p.data.isPrefixOf s.data

/-- Substring test on character lists (Python `needle in hay` on `str`). -/
def containsSub (needle : List Char) : List Char → Bool
  | [] => needle.isEmpty
  | c :: t => needle.isPrefixOf (c :: t) || containsSub needle t

/-- Python `needle in hay` for strings. -/
def pyInStr (needle hay : String) : Bool :=
  containsSub needle.data hay.data

/-- Python `list.index` (first index of an element; length if absent — the
sources only call it under a membership guard). -/
def listIndex (a : String) : List String → Nat
  | [] => 0
  | b :: t => if b = a then 0 else listIndex a t + 1

/-- `InvestDebateState` from `agent_states.py` (2-party research debate). -/
structure InvestDebateState where
  bull_history : String
  bear_history : String
  history : String
  current_response : String
  judge_decision : String
  count : Nat
deriving DecidableEq, Repr

/-- `RiskDebateState` from `agent_states.py` (3-party risk debate). -/
structure RiskDebateState where
  risky_history : String
  safe_history : String
  neutral_history : String
  history : String
  latest_speaker : String
  current_risky_response : String
  current_safe_response : String
  current_neutral_response : String
  judge_decision : String
  count : Nat
deriving DecidableEq, Repr

/-- `AgentState` from `agent_states.py`.  A message is a (role, content)
pair; `messages` carries the `add_messages` append-only channel. -/
structure AgentState where
  messages : List (String × String)
  company_of_interest : String
  trade_date : String
  sender : String
  market_report : String
  sentiment_report : String
  news_report : String
  fundamentals_report : String
  investment_debate_state : InvestDebateState
  investment_plan : String
  trader_investment_plan : String
  risk_debate_state : RiskDebateState
  final_trade_decision : String
deriving DecidableEq, Repr

/-- A partial state update (the `update=` dict of a `Command`); `none` means
the key is absent from the dict.  `messages` is the append-only channel, so
its patch is the list of appended messages (empty when absent). -/
structure StatePatch where
  messages : List (String × String) := []
  company_of_interest : Option String := none
  trade_date : Option String := none
  sender : Option String := none
  market_report : Option String := none
  sentiment_report : Option String := none
  news_report : Option String := none
  fundamentals_report : Option String := none
  investment_debate_state : Option InvestDebateState := none
  investment_plan : Option String := none
  trader_investment_plan : Option String := none
  risk_debate_state : Option RiskDebateState := none
  final_trade_decision : Option String := none
deriving DecidableEq, Repr

/-- Last-write-wins merge of a patch into the state (LangGraph channel
semantics; `messages` is applied by concatenation, per `add_messages`). -/
def applyUpdate (s : AgentState) (u : StatePatch) : AgentState where
  messages := s.messages ++ u.messages
  company_of_interest := u.company_of_interest.getD s.company_of_interest
  trade_date := u.trade_date.getD s.trade_date
  sender := u.sender.getD s.sender
  market_report := u.market_report.getD s.market_report
  sentiment_report := u.sentiment_report.getD s.sentiment_report
  news_report := u.news_report.getD s.news_report
  fundamentals_report := u.fundamentals_report.getD s.fundamentals_report
  investment_debate_state :=
    u.investment_debate_state.getD s.investment_debate_state
  investment_plan := u.investment_plan.getD s.investment_plan
  trader_investment_plan :=
    u.trader_investment_plan.getD s.trader_investment_plan
  risk_debate_state := u.risk_debate_state.getD s.risk_debate_state
  final_trade_decision := u.final_trade_decision.getD s.final_trade_decision

/-- Routing target of a `Command`: a named node, `END`, or a parallel
fan-out `[Send(node, state), ...]` (each `Send` carries the state snapshot
passed to that branch). -/
inductive Goto where
  | node : String → Goto
  | halt : Goto
  | fanout : List (String × AgentState) → Goto
deriving DecidableEq, Repr

/-- A routing decision: `Command(goto=..., update=...)`; omitting `update`
in the source means the empty patch. -/
structure RCommand where
  goto : Goto
  update : StatePatch := {}
deriving DecidableEq, Repr

/-- `make_supervisor_node` (supervisor.py lines 11-41): the top-level phase
sequencer returned by the factory, applied to a state. -/
def make_supervisor_node (members : List String) (state : AgentState) :
    RCommand :=
  let members_lower := members.map pyLower
  let sender := pyLower (pyStrip state.sender)
  if sender = "" ∨ sender = "system" ∨ sender ∉ members_lower then
    { goto := Goto.node (members.getD 0 ""),
      update := { sender := some "supervisor" } }
  else
    let idx := listIndex sender members_lower + 1
    if members.length ≤ idx then
      { goto := Goto.halt, update := { sender := some "supervisor" } }
    else
      { goto := Goto.node (members.getD idx ""),
        update := { sender := some "supervisor" } }

/-- Execution mode of the analyst dispatcher. -/
inductive ExecMethod where
  | serial
  | parallel
deriving DecidableEq, Repr

/-- `analyst_supervisor_node` (supervisor.py lines 44-94): the analyst
dispatcher returned by the factory, applied to a state. -/
def analyst_supervisor_node (members : List String) (method : ExecMethod)
    (state : AgentState) : RCommand :=
  let members_lower := members.map pyLower
  let sender := pyLower (pyStrip state.sender)
  if method = ExecMethod.parallel then
    if sender = "" ∨ sender = "system" ∨ sender ∉ members_lower then
      { goto := Goto.fanout (members.map (fun node => (node, state))) }
    else
      { goto := Goto.halt }
  else
    if sender = "" ∨ sender = "system" ∨ sender ∉ members_lower then
      { goto := Goto.node (members.getD 0 "") }
    else
      let idx := listIndex sender members_lower + 1
      if members.length ≤ idx then
        { goto := Goto.halt }
      else
        { goto := Goto.node (members.getD idx "") }

/-- `_pick` helper shared by the two debate supervisors. -/
def pick (members : List String) (name : String) : String :=
  members.getD (listIndex name (members.map pyLower)) ""

/-- `research_supervisor_node` (supervisor.py lines 97-151): the research
debate coordinator returned by the factory, applied to a state. -/
def research_supervisor_node (members : List String) (max_turns : Nat)
    (state : AgentState) : RCommand :=
  let members_lower := members.map pyLower
  let debate := state.investment_debate_state
  if debate.judge_decision ≠ "" then
    { goto := Goto.halt }
  else
    let c := (members_lower.filter (fun m => !(pyInStr "manager" m))).length
    let debater_count := if c = 0 then 1 else c
    if max_turns * debater_count ≤ debate.count ∧
        "research_manager_node" ∈ members_lower then
      { goto := Goto.node (pick members "research_manager_node") }
    else
      let current := pyStrip debate.current_response
      if pyStartsWith current "Bull Analyst:" = true ∧
          "bear_node" ∈ members_lower then
        { goto := Goto.node (pick members "bear_node") }
      else if pyStartsWith current "Bear Analyst:" = true ∧
          "bull_node" ∈ members_lower then
        { goto := Goto.node (pick members "bull_node") }
      else if "bull_node" ∈ members_lower then
        { goto := Goto.node (pick members "bull_node") }
      else
        { goto := Goto.node (members.getD 0 "") }

/-- `risk_supervisor_node` (supervisor.py lines 154-213): the risk debate
coordinator returned by the factory, applied to a state. -/
def risk_supervisor_node (members : List String) (max_turns : Nat)
    (state : AgentState) : RCommand :=
  let members_lower := members.map pyLower
  let debate := state.risk_debate_state
  if debate.judge_decision ≠ "" ∨ pyLower debate.latest_speaker = "judge" then
    { goto := Goto.halt }
  else
    let c := (members_lower.filter (fun m => !(pyInStr "manager" m))).length
    let debater_count := if c = 0 then 1 else c
    if max_turns * debater_count ≤ debate.count ∧
        "risk_manager_node" ∈ members_lower then
      { goto := Goto.node (pick members "risk_manager_node") }
    else
      let latest := pyStrip (pyLower debate.latest_speaker)
      if latest = "risky" ∧ "safe_node" ∈ members_lower then
        { goto := Goto.node (pick members "safe_node") }
      else if latest = "safe" ∧ "neutral_node" ∈ members_lower then
        { goto := Goto.node (pick members "neutral_node") }
      else if latest = "neutral" ∧ "risk_node" ∈ members_lower then
        { goto := Goto.node (pick members "risk_node") }
      else if "risk_node" ∈ members_lower then
        { goto := Goto.node (pick members "risk_node") }
      else
        { goto := Goto.node (members.getD 0 "") }

/-- `Propagator.create_initial_state` (propagation.py lines 24-77). -/
def create_initial_state (company_name trade_date : String) : AgentState where
  messages := [("human", company_name)]
  company_of_interest := company_name
  trade_date := trade_date
  sender := "system"
  market_report := ""
  sentiment_report := ""
  news_report := ""
  fundamentals_report := ""
  investment_debate_state :=
    { bull_history := "", bear_history := "", history := "",
      current_response := "", judge_decision := "", count := 0 }
  investment_plan := ""
  trader_investment_plan := ""
  risk_debate_state :=
    { risky_history := "", safe_history := "", neutral_history := "",
      history := "", latest_speaker := "", current_risky_response := "",
      current_safe_response := "", current_neutral_response := "",
      judge_decision := "", count := 0 }
  final_trade_decision := ""

/-- The `Command` returned by `market_analyst_node` on completion
(market_agent.py lines 80-86), as a function of the produced report. -/
def market_analyst_node_command (report : String) : RCommand where
  goto := Goto.node "analyst_supervisor"
  update := { market_report := some report, sender := some "market_node" }

/-- The `Command` returned by `news_analyst_node` on completion
(news_agent.py lines 52-59), as a function of the produced report. -/
def news_analyst_node_command (report : String) : RCommand where
  goto := Goto.node "analyst_supervisor"
  update := { messages := [("ai", report)], news_report := some report,
              sender := some "news_node" }

/-- The `Command` returned by `social_media_analyst_node` on completion
(social_media_agent.py lines 57-60), as a function of the produced report.
Note that the update dict in the source contains only `sentiment_report`. -/
def social_media_analyst_node_command (report : String) : RCommand where
  goto := Goto.node "analyst_supervisor"
  update := { sentiment_report := some report }

/-- The `Command` returned by `fundamentals_analyst_node` on completion
(fundamentals_agent.py lines 61-67), as a function of the produced report. -/
def fundamentals_analyst_node_command (report : String) : RCommand where
  goto := Goto.node "analyst_supervisor"
  update := { fundamentals_report := some report,
              sender := some "fundamentals_node" }

/-- Member list the analyst dispatcher is instantiated with
(analyst.py lines 27-30). -/
def analystMembers : List String :=
  ["market_node", "news_node", "social_node", "fundamentals_node"]

/-- Member list the research debate coordinator is instantiated with
(researcher.py lines 29-32). -/
def researchMembers : List String :=
  ["bear_node", "bull_node", "research_manager_node"]

/-- Member list the risk debate coordinator is instantiated with
(risk.py lines 21-24). -/
def riskMembers : List String :=
  ["risk_node", "safe_node", "neutral_node", "risk_manager_node"]

/-- Phase list the top-level sequencer is instantiated with
(setup.py lines 65-67). -/
def phaseMembers : List String :=
  ["analyst", "researcher", "trader", "risk"]

/-- Routing decision of the phase sequencer as a function of the sender
alone (the sequencer reads only `state.sender`): `some t` when it routes to
node `t`, `none` when it terminates. -/
def phaseNext (members : List String) (sender : String) : Option String :=
  match (make_supervisor_node members
      { create_initial_state "" "" with sender := sender }).goto with
  | Goto.node t => some t
  | _ => none

/-- The sequence of phases visited when, starting from `sender`, each
dispatched phase completes and (as the wrapper nodes in the source do) sets
`sender` to its own node name; `fuel` bounds the number of steps. -/
def phaseRun (members : List String) (sender : String) : Nat → List String
  | 0 => []
  | k + 1 =>
    match phaseNext members sender with
    | some t => t :: phaseRun members t k
    | none => []

/-- Convenience constructor: the initial state with the research debate
record replaced. -/
def mkInvestState (response judge : String) (count : Nat) : AgentState :=
  { create_initial_state "AAPL" "2024-01-02" with
    investment_debate_state :=
      { bull_history := "", bear_history := "", history := "",
        current_response := response, judge_decision := judge,
        count := count } }

/-- Convenience constructor: the initial state with the risk debate record
replaced. -/
def mkRiskState (speaker judge : String) (count : Nat) : AgentState :=
  { create_initial_state "AAPL" "2024-01-02" with
    risk_debate_state :=
      { risky_history := "", safe_history := "", neutral_history := "",
        history := "", latest_speaker := speaker,
        current_risky_response := "", current_safe_response := "",
        current_neutral_response := "", judge_decision := judge,
        count := count } }

lemma applyUpdate_empty (s : AgentState) : applyUpdate s {} = s := by
  cases s
  simp [applyUpdate]

lemma research_halt_of_judge (members : List String) (mt : Nat)
    (s : AgentState) (hj : s.investment_debate_state.judge_decision ≠ "") :
    research_supervisor_node members mt s = { goto := Goto.halt } := by
  simp only [research_supervisor_node]
  rw [if_pos hj]

lemma risk_halt_of_judge (members : List String) (mt : Nat)
    (s : AgentState)
    (hj : s.risk_debate_state.judge_decision ≠ "" ∨
      pyLower s.risk_debate_state.latest_speaker = "judge") :
    risk_supervisor_node members mt s = { goto := Goto.halt } := by
  simp only [risk_supervisor_node]
  rw [if_pos hj]

/-- Claim C10: routing decisions never modify shared state except for the
sender marker: the analyst dispatcher (either mode) and both debate
coordinators return the empty state patch (which leaves every field of the
state unchanged under the merge), while the patch of the top-level phase
sequencer is exactly `sender := "supervisor"` in every branch. -/
theorem routing_frame_condition (members : List String) (method : ExecMethod)
    (mtR mtK : Nat) (s : AgentState) :
    (analyst_supervisor_node members method s).update = {} ∧
    (research_supervisor_node members mtR s).update = {} ∧
    (risk_supervisor_node members mtK s).update = {} ∧
    (make_supervisor_node members s).update = { sender := some "supervisor" } ∧
    applyUpdate s {} = s := by
  refine ⟨?_, ?_, ?_, ?_, applyUpdate_empty s⟩
  · simp only [analyst_supervisor_node]
    split_ifs <;> rfl
  · simp only [research_supervisor_node]
    split_ifs <;> rfl
  · simp only [risk_supervisor_node]
    split_ifs <;> rfl
  · simp only [make_supervisor_node]
    split_ifs <;> rfl

/-- Claim C8: `create_initial_state` is a pure function of subject and date
yielding empty report slots, zeroed debate records, the system sender
marker, and verbatim subject/date. -/
theorem create_initial_state_contract (subject date : String) :
    (create_initial_state subject date).market_report = "" ∧
    (create_initial_state subject date).sentiment_report = "" ∧
    (create_initial_state subject date).news_report = "" ∧
    (create_initial_state subject date).fundamentals_report = "" ∧
    (create_initial_state subject date).investment_debate_state =
      { bull_history := "", bear_history := "", history := "",
        current_response := "", judge_decision := "", count := 0 } ∧
    (create_initial_state subject date).risk_debate_state =
      { risky_history := "", safe_history := "", neutral_history := "",
        history := "", latest_speaker := "", current_risky_response := "",
        current_safe_response := "", current_neutral_response := "",
        judge_decision := "", count := 0 } ∧
    (create_initial_state subject date).sender = "system" ∧
    (create_initial_state subject date).company_of_interest = subject ∧
    (create_initial_state subject date).trade_date = date :=
  ⟨rfl, rfl, rfl, rfl, rfl, rfl, rfl, rfl, rfl⟩

/-- Claim C7: once the judge decision is non-empty (or, in the risk
coordinator, the latest speaker is the judge), the decision is TERMINATE,
and re-deciding on the resulting state again yields TERMINATE. -/
theorem judge_decision_terminal_idempotent (mtR mtK : Nat) (s : AgentState) :
    (s.investment_debate_state.judge_decision ≠ "" →
      research_supervisor_node researchMembers mtR s = { goto := Goto.halt } ∧
      research_supervisor_node researchMembers mtR
        (applyUpdate s (research_supervisor_node researchMembers mtR s).update) =
        { goto := Goto.halt }) ∧
    ((s.risk_debate_state.judge_decision ≠ "" ∨
        pyLower s.risk_debate_state.latest_speaker = "judge") →
      risk_supervisor_node riskMembers mtK s = { goto := Goto.halt } ∧
      risk_supervisor_node riskMembers mtK
        (applyUpdate s (risk_supervisor_node riskMembers mtK s).update) =
        { goto := Goto.halt }) := by
  constructor
  · intro hj
    have h1 := research_halt_of_judge researchMembers mtR s hj
    refine ⟨h1, ?_⟩
    rw [h1]
    show research_supervisor_node researchMembers mtR (applyUpdate s {}) =
      { goto := Goto.halt }
    rw [applyUpdate_empty]
    exact h1
  · intro hj
    have h1 := risk_halt_of_judge riskMembers mtK s hj
    refine ⟨h1, ?_⟩
    rw [h1]
    show risk_supervisor_node riskMembers mtK (applyUpdate s {}) =
      { goto := Goto.halt }
    rw [applyUpdate_empty]
    exact h1

/-- Witness for C7 at a concrete state whose judge decision is set. -/
theorem judge_decision_terminal_idempotent_witness :
    research_supervisor_node researchMembers 1
      { create_initial_state "AAPL" "2024-01-02" with
        investment_debate_state :=
          { bull_history := "", bear_history := "", history := "",
            current_response := "", judge_decision := "BUY", count := 2 } } =
      { goto := Goto.halt } ∧
    risk_supervisor_node riskMembers 3
      { create_initial_state "AAPL" "2024-01-02" with
        risk_debate_state :=
          { risky_history := "", safe_history := "", neutral_history := "",
            history := "", latest_speaker := "judge",
            current_risky_response := "", current_safe_response := "",
            current_neutral_response := "", judge_decision := "", count := 0 } } =
      { goto := Goto.halt } :=
  ⟨((judge_decision_terminal_idempotent 1 3 _).1 (by decide)).1,
   ((judge_decision_terminal_idempotent 1 3 _).2 (Or.inr (by decide))).1⟩

lemma startsWith_bear_not_bull (c : String)
    (h : pyStartsWith c "Bear Analyst:" = true) :
    pyStartsWith c "Bull Analyst:" = false := by
  unfold pyStartsWith at h ⊢
  rw [ List.isPrefixOf_iff_prefix] at h
  by_contra hb
  rw [Bool.not_eq_false, List.isPrefixOf_iff_prefix] at hb
  rcases List.prefix_or_prefix_of_prefix hb h with hp | hp
  · rw [ ← List.isPrefixOf_iff_prefix] at hp
    exact absurd hp (by decide)
  · rw [ ← List.isPrefixOf_iff_prefix] at hp
    exact absurd hp (by decide)

/-- Claim C4, counterexample: in the risk coordinator, a debate state with
empty judge decision and count at the escalation bound but latest speaker
"judge" terminates instead of routing to the manager. -/
theorem debate_escalation_claim_counterexample :
    (mkRiskState "judge" "" 9).risk_debate_state.judge_decision = "" ∧
    3 * 3 ≤ (mkRiskState "judge" "" 9).risk_debate_state.count ∧
    risk_supervisor_node riskMembers 3 (mkRiskState "judge" "" 9) =
      { goto := Goto.halt } ∧
    risk_supervisor_node riskMembers 3 (mkRiskState "judge" "" 9) ≠
      { goto := Goto.node "risk_manager_node" } := by decide

/-- Claim C4, amended: with empty judge decision, count at or above
maxTurnsPerDebater times the debater count and — in the risk coordinator —
a latest speaker that is not the judge, both coordinators route to their
manager regardless of the continuity signal. -/
theorem debate_escalation_amended (mtR mtK : Nat) (s : AgentState)
    (hjR : s.investment_debate_state.judge_decision = "")
    (hcR : mtR * 2 ≤ s.investment_debate_state.count)
    (hjK : s.risk_debate_state.judge_decision = "")
    (hlK : pyLower s.risk_debate_state.latest_speaker ≠ "judge")
    (hcK : mtK * 3 ≤ s.risk_debate_state.count) :
    research_supervisor_node researchMembers mtR s =
      { goto := Goto.node "research_manager_node" } ∧
    risk_supervisor_node riskMembers mtK s =
      { goto := Goto.node "risk_manager_node" } := by
  constructor
  · simp only [research_supervisor_node]
    rw [if_neg (by simp [hjR])]
    rw [if_pos ⟨hcR, by decide⟩]
    rfl
  · simp only [risk_supervisor_node]
    rw [if_neg (by simp [hjK, hlK])]
    rw [if_pos ⟨hcK, by decide⟩]
    rfl

/-- Witness for the amended C4 at a concrete state with both debates at
their escalation bounds. -/
theorem debate_escalation_amended_witness :
    research_supervisor_node researchMembers 1
      { mkRiskState "risky" "" 9 with
        investment_debate_state :=
          { bull_history := "", bear_history := "", history := "",
            current_response := "Bear Analyst: sell", judge_decision := "",
            count := 2 } } = { goto := Goto.node "research_manager_node" } ∧
    risk_supervisor_node riskMembers 3
      { mkRiskState "risky" "" 9 with
        investment_debate_state :=
          { bull_history := "", bear_history := "", history := "",
            current_response := "Bear Analyst: sell", judge_decision := "",
            count := 2 } } = { goto := Goto.node "risk_manager_node" } :=
  debate_escalation_amended 1 3
    { mkRiskState "risky" "" 9 with
      investment_debate_state :=
        { bull_history := "", bear_history := "", history := "",
          current_response := "Bear Analyst: sell", judge_decision := "",
          count := 2 } }
    (by decide) (by decide) (by decide) (by decide) (by decide)

/-- Claim C1, counterexample: in parallel mode the dispatcher never
inspects the report slots.  With a recognized sender and all four report
slots still empty, the decision is TERMINATE (not "no routing action");
and with all four slots non-empty but an unrecognized sender, the decision
is a fan-out, not TERMINATE. -/
theorem parallel_dispatch_claim_counterexample :
    ({ create_initial_state "AAPL" "2024-01-02" with
        sender := "market_node" } : AgentState).market_report = "" ∧
    ({ create_initial_state "AAPL" "2024-01-02" with
        sender := "market_node" } : AgentState).sentiment_report = "" ∧
    ({ create_initial_state "AAPL" "2024-01-02" with
        sender := "market_node" } : AgentState).news_report = "" ∧
    ({ create_initial_state "AAPL" "2024-01-02" with
        sender := "market_node" } : AgentState).fundamentals_report = "" ∧
    analyst_supervisor_node analystMembers ExecMethod.parallel
      { create_initial_state "AAPL" "2024-01-02" with
        sender := "market_node" } = { goto := Goto.halt } ∧
    analyst_supervisor_node analystMembers ExecMethod.parallel
      { create_initial_state "AAPL" "2024-01-02" with
        market_report := "m", sentiment_report := "s", news_report := "n",
        fundamentals_report := "f" } ≠ { goto := Goto.halt } := by decide

/-- Claim C1, amended: the parallel dispatcher keys on the sender, not on
the report slots.  An empty, system, or unrecognized sender fans out
exactly one invocation per worker (the four distinct members, each sent
the current state) in one decision; a recognized member sender yields
TERMINATE regardless of which report slots are filled. -/
theorem parallel_dispatch_amended (s : AgentState) :
    ((pyLower (pyStrip s.sender) = "" ∨ pyLower (pyStrip s.sender) = "system" ∨
        pyLower (pyStrip s.sender) ∉ analystMembers.map pyLower) →
      analyst_supervisor_node analystMembers ExecMethod.parallel s =
        { goto := Goto.fanout (analystMembers.map (fun node => (node, s))) } ∧
      analystMembers.length = 4 ∧ analystMembers.Nodup) ∧
    (pyLower (pyStrip s.sender) ∈ analystMembers.map pyLower →
      analyst_supervisor_node analystMembers ExecMethod.parallel s =
        { goto := Goto.halt }) := by
  constructor
  · intro h
    refine ⟨?_, by decide, by decide⟩
    simp only [analyst_supervisor_node]
    rw [if_pos trivial, if_pos h]
  · intro h
    have h1 : pyLower (pyStrip s.sender) ≠ "" := by
      intro he; rw [he] at h; exact absurd h (by decide)
    have h2 : pyLower (pyStrip s.sender) ≠ "system" := by
      intro he; rw [he] at h; exact absurd h (by decide)
    simp only [analyst_supervisor_node]
    rw [if_pos trivial,
      if_neg (by rintro (he | he | hnm); exacts [h1 he, h2 he, hnm h])]

/-- Witness for the amended C1: the initial state fans out to all four
analysts; a state whose sender is a member terminates. -/
theorem parallel_dispatch_amended_witness :
    analyst_supervisor_node analystMembers ExecMethod.parallel
      (create_initial_state "AAPL" "2024-01-02") =
      { goto := Goto.fanout (analystMembers.map
          (fun node => (node, create_initial_state "AAPL" "2024-01-02"))) } ∧
    analyst_supervisor_node analystMembers ExecMethod.parallel
      { create_initial_state "AAPL" "2024-01-02" with sender := "news_node" } =
      { goto := Goto.halt } :=
  ⟨((parallel_dispatch_amended (create_initial_state "AAPL" "2024-01-02")).1
      (by decide)).1,
   (parallel_dispatch_amended
      { create_initial_state "AAPL" "2024-01-02" with sender := "news_node" }).2
      (by decide)⟩

/-- Claim C2: the completion update of the social media analyst omits `sender`
(the other three analysts set it), so after the social worker completes the
sender still names the news worker and the serial dispatcher routes back to
`social_node` instead of advancing to `fundamentals_node`. -/
theorem analyst_sender_code_bug :
    (social_media_analyst_node_command "s").update.sender = none ∧
    (market_analyst_node_command "m").update.sender = some "market_node" ∧
    (news_analyst_node_command "n").update.sender = some "news_node" ∧
    (fundamentals_analyst_node_command "f").update.sender =
      some "fundamentals_node" ∧
    (applyUpdate (applyUpdate (applyUpdate
        (create_initial_state "AAPL" "2024-01-02")
        (market_analyst_node_command "m").update)
        (news_analyst_node_command "n").update)
        (social_media_analyst_node_command "s").update).sender = "news_node" ∧
    analyst_supervisor_node analystMembers ExecMethod.serial
      (applyUpdate (applyUpdate (applyUpdate
        (create_initial_state "AAPL" "2024-01-02")
        (market_analyst_node_command "m").update)
        (news_analyst_node_command "n").update)
        (social_media_analyst_node_command "s").update) =
      { goto := Goto.node "social_node" } := by decide

/-- Claim C5: research debate with maxTurnsPerDebater 1: the first decision
from the initial state routes to bull; while the judge has not decided and
fewer than 2 turns were taken, a current response with the bull label
routes to bear and one with the bear label routes to bull; and at count 2
the decision routes to the research manager regardless of the response. -/
theorem research_round_max_turns_one (sub date : String) (s : AgentState) :
    research_supervisor_node researchMembers 1 (create_initial_state sub date) =
      { goto := Goto.node "bull_node" } ∧
    (s.investment_debate_state.judge_decision = "" →
      s.investment_debate_state.count < 2 →
      (pyStartsWith (pyStrip s.investment_debate_state.current_response)
          "Bull Analyst:" = true →
        research_supervisor_node researchMembers 1 s =
          { goto := Goto.node "bear_node" }) ∧
      (pyStartsWith (pyStrip s.investment_debate_state.current_response)
          "Bear Analyst:" = true →
        research_supervisor_node researchMembers 1 s =
          { goto := Goto.node "bull_node" })) ∧
    (s.investment_debate_state.judge_decision = "" →
      s.investment_debate_state.count = 2 →
      research_supervisor_node researchMembers 1 s =
        { goto := Goto.node "research_manager_node" }) := by
  refine ⟨rfl, ?_, ?_⟩
  · intro hj hc
    constructor
    · intro hbull
      simp only [research_supervisor_node]
      rw [if_neg (by simp [hj])]
      rw [if_neg (fun hcon => absurd hcon.1 (show ¬(1 * 2 ≤
        s.investment_debate_state.count) by omega))]
      rw [if_pos ⟨hbull, by decide⟩]
      rfl
    · intro hbear
      simp only [research_supervisor_node]
      rw [if_neg (by simp [hj])]
      rw [if_neg (fun hcon => absurd hcon.1 (show ¬(1 * 2 ≤
        s.investment_debate_state.count) by omega))]
      rw [if_neg (fun hcon => Bool.noConfusion
        ((startsWith_bear_not_bull _ hbear).symm.trans hcon.1))]
      rw [if_pos ⟨hbear, by decide⟩]
      rfl
  · intro hj hc
    simp only [research_supervisor_node]
    rw [if_neg (by simp [hj])]
    rw [if_pos ⟨show (1 : Nat) * 2 ≤ s.investment_debate_state.count by
      omega, by decide⟩]
    rfl

/-- Witness for C5: the bull turn at count 1 routes to bear; the bear turn
at count 2 escalates to the research manager. -/
theorem research_round_max_turns_one_witness :
    research_supervisor_node researchMembers 1
      (mkInvestState "Bull Analyst: strong buy" "" 1) =
      { goto := Goto.node "bear_node" } ∧
    research_supervisor_node researchMembers 1
      (mkInvestState "Bear Analyst: sell" "" 2) =
      { goto := Goto.node "research_manager_node" } :=
  ⟨((research_round_max_turns_one "AAPL" "2024-01-02"
        (mkInvestState "Bull Analyst: strong buy" "" 1)).2.1
      (by decide) (by decide)).1 (by decide),
   (research_round_max_turns_one "AAPL" "2024-01-02"
        (mkInvestState "Bear Analyst: sell" "" 2)).2.2
      (by decide) (by decide)⟩

/-- Claim C6: below the escalation bound and with no judge verdict, the
successor cycle of the risk coordinator over the latest speaker is exactly
risky to safe, safe to neutral, neutral to risky, and an empty or
unrecognized (non-judge) speaker starts at risky. -/
theorem risk_cycle (mt : Nat) (s : AgentState)
    (hj : s.risk_debate_state.judge_decision = "")
    (hc : s.risk_debate_state.count < mt * 3) :
    (pyStrip (pyLower s.risk_debate_state.latest_speaker) = "risky" →
      risk_supervisor_node riskMembers mt s =
        { goto := Goto.node "safe_node" }) ∧
    (pyStrip (pyLower s.risk_debate_state.latest_speaker) = "safe" →
      risk_supervisor_node riskMembers mt s =
        { goto := Goto.node "neutral_node" }) ∧
    (pyStrip (pyLower s.risk_debate_state.latest_speaker) = "neutral" →
      risk_supervisor_node riskMembers mt s =
        { goto := Goto.node "risk_node" }) ∧
    (pyStrip (pyLower s.risk_debate_state.latest_speaker) ∉
        (["risky", "safe", "neutral"] : List String) →
      pyLower s.risk_debate_state.latest_speaker ≠ "judge" →
      risk_supervisor_node riskMembers mt s =
        { goto := Goto.node "risk_node" }) := by
  have hesc : ¬(mt * 3 ≤ s.risk_debate_state.count) := by omega
  refine ⟨?_, ?_, ?_, ?_⟩
  · intro hlat
    have hnj : pyLower s.risk_debate_state.latest_speaker ≠ "judge" := by
      intro he; rw [he] at hlat; exact absurd hlat (by decide)
    simp only [risk_supervisor_node]
    rw [if_neg (by simp [hj, hnj])]
    rw [if_neg (fun hcon => absurd hcon.1 hesc)]
    rw [if_pos ⟨hlat, by decide⟩]
    rfl
  · intro hlat
    have hnj : pyLower s.risk_debate_state.latest_speaker ≠ "judge" := by
      intro he; rw [he] at hlat; exact absurd hlat (by decide)
    simp only [risk_supervisor_node]
    rw [if_neg (by simp [hj, hnj])]
    rw [if_neg (fun hcon => absurd hcon.1 hesc)]
    rw [if_neg (fun hcon => absurd (hlat.symm.trans hcon.1) (by decide))]
    rw [if_pos ⟨hlat, by decide⟩]
    rfl
  · intro hlat
    have hnj : pyLower s.risk_debate_state.latest_speaker ≠ "judge" := by
      intro he; rw [he] at hlat; exact absurd hlat (by decide)
    simp only [risk_supervisor_node]
    rw [if_neg (by simp [hj, hnj])]
    rw [if_neg (fun hcon => absurd hcon.1 hesc)]
    rw [if_neg (fun hcon => absurd (hlat.symm.trans hcon.1) (by decide))]
    rw [if_neg (fun hcon => absurd (hlat.symm.trans hcon.1) (by decide))]
    rw [if_pos ⟨hlat, by decide⟩]
    rfl
  · intro hlat hnj
    simp only [risk_supervisor_node]
    rw [if_neg (by simp [hj, hnj])]
    rw [if_neg (fun hcon => absurd hcon.1 hesc)]
    rw [if_neg (fun hcon => hlat (by rw [hcon.1]; decide))]
    rw [if_neg (fun hcon => hlat (by rw [hcon.1]; decide))]
    rw [if_neg (fun hcon => hlat (by rw [hcon.1]; decide))]
    rw [if_pos (by decide)]
    rfl

/-- Witness for C6: the full risky, safe, neutral cycle at counts below the
configured bound of 9 turns, and the default entry with no speaker. -/
theorem risk_cycle_witness :
    risk_supervisor_node riskMembers 3 (mkRiskState "" "" 0) =
      { goto := Goto.node "risk_node" } ∧
    risk_supervisor_node riskMembers 3 (mkRiskState "Risky" "" 7) =
      { goto := Goto.node "safe_node" } ∧
    risk_supervisor_node riskMembers 3 (mkRiskState "Safe" "" 8) =
      { goto := Goto.node "neutral_node" } ∧
    risk_supervisor_node riskMembers 3 (mkRiskState "Neutral" "" 6) =
      { goto := Goto.node "risk_node" } :=
  ⟨(risk_cycle 3 (mkRiskState "" "" 0) (by decide) (by decide)).2.2.2
      (by decide) (by decide),
   (risk_cycle 3 (mkRiskState "Risky" "" 7) (by decide) (by decide)).1
      (by decide),
   (risk_cycle 3 (mkRiskState "Safe" "" 8) (by decide) (by decide)).2.1
      (by decide),
   (risk_cycle 3 (mkRiskState "Neutral" "" 6) (by decide) (by decide)).2.2.1
      (by decide)⟩

/-- Claim C9: routing anomalies are absorbed by defaulting: an unmatched
sender sends the phase sequencer to its first member (no error is possible:
the decision function is total); an unmatched continuity signal sends the
research debate to bull and the risk debate to risky, below the escalation
bound. -/
theorem routing_defaults (members : List String) (mtR mtK : Nat)
    (s : AgentState) ( _hne : members ≠ []) :
    (pyLower (pyStrip s.sender) ∉ members.map pyLower →
      (make_supervisor_node members s).goto = Goto.node (members.getD 0 "")) ∧
    (s.investment_debate_state.judge_decision = "" →
      s.investment_debate_state.count < mtR * 2 →
      pyStartsWith (pyStrip s.investment_debate_state.current_response)
        "Bull Analyst:" = false →
      pyStartsWith (pyStrip s.investment_debate_state.current_response)
        "Bear Analyst:" = false →
      research_supervisor_node researchMembers mtR s =
        { goto := Goto.node "bull_node" }) ∧
    (s.risk_debate_state.judge_decision = "" →
      pyLower s.risk_debate_state.latest_speaker ≠ "judge" →
      s.risk_debate_state.count < mtK * 3 →
      pyStrip (pyLower s.risk_debate_state.latest_speaker) ∉
        (["risky", "safe", "neutral"] : List String) →
      risk_supervisor_node riskMembers mtK s =
        { goto := Goto.node "risk_node" }) := by
  refine ⟨?_, ?_, ?_⟩
  · intro h
    simp only [make_supervisor_node]
    rw [if_pos (Or.inr (Or.inr h))]
  · intro hj hc hbull hbear
    simp only [research_supervisor_node]
    rw [if_neg (by simp [hj])]
    rw [if_neg (fun hcon => absurd hcon.1 (show ¬(mtR * 2 ≤
      s.investment_debate_state.count) by omega))]
    rw [if_neg (fun hcon => Bool.noConfusion (hbull.symm.trans hcon.1))]
    rw [if_neg (fun hcon => Bool.noConfusion (hbear.symm.trans hcon.1))]
    rw [if_pos (by decide)]
    rfl
  · intro hj hnj hc hlat
    simp only [risk_supervisor_node]
    rw [if_neg (by simp [hj, hnj])]
    rw [if_neg (fun hcon => absurd hcon.1 (show ¬(mtK * 3 ≤
      s.risk_debate_state.count) by omega))]
    rw [if_neg (fun hcon => hlat (by rw [hcon.1]; decide))]
    rw [if_neg (fun hcon => hlat (by rw [hcon.1]; decide))]
    rw [if_neg (fun hcon => hlat (by rw [hcon.1]; decide))]
    rw [if_pos (by decide)]
    rfl

/-- Witness for C9 at concrete anomalous inputs: a garbage sender, a
response with no recognized label, and a stalled risk speaker. -/
theorem routing_defaults_witness :
    (make_supervisor_node phaseMembers
      { create_initial_state "AAPL" "2024-01-02" with
        sender := "garbage!!" }).goto = Goto.node "analyst" ∧
    research_supervisor_node researchMembers 1
      (mkInvestState "Moderator: welcome" "" 1) =
      { goto := Goto.node "bull_node" } ∧
    risk_supervisor_node riskMembers 3 (mkRiskState "someone else" "" 5) =
      { goto := Goto.node "risk_node" } :=
  ⟨by
    have h := (routing_defaults phaseMembers 1 1
      { create_initial_state "AAPL" "2024-01-02" with
        sender := "garbage!!" } (by decide)).1 (by decide)
    exact h.trans (by decide),
   (routing_defaults researchMembers 1 3
      (mkInvestState "Moderator: welcome" "" 1) (by decide)).2.1
      (by decide) (by decide) (by decide) (by decide),
   (routing_defaults riskMembers 1 3
      (mkRiskState "someone else" "" 5) (by decide)).2.2
      (by decide) (by decide) (by decide) (by decide)⟩

lemma getD_mem_of_lt : ∀ (l : List String) (i : Nat), i < l.length →
    l.getD i "" ∈ l
  | a :: t, 0, _ => by simp
  | a :: t, i + 1, h => by
    rw [List.getD_cons_succ]
    exact List.mem_cons_of_mem a (getD_mem_of_lt t i (by simpa using h))

lemma listIndex_getD (l : List String) (hnd : l.Nodup) :
    ∀ i : Nat, i < l.length → listIndex (l.getD i "") l = i := by
  induction l with
  | nil => intro i hi; simp at hi
  | cons a t ih =>
    intro i hi
    cases i with
    | zero => simp [listIndex]
    | succ j =>
      have hj : j < t.length := by simpa using hi
      rw [List.getD_cons_succ]
      have hna : a ≠ t.getD j "" := by
        intro he
        exact (List.nodup_cons.mp hnd).1 (he ▸ getD_mem_of_lt t j hj)
      simp only [listIndex]
      rw [if_neg hna, ih (List.nodup_cons.mp hnd).2 j hj]

lemma map_pyLower_getD (l : List String) (i : Nat) (h : i < l.length) :
    (l.map pyLower).getD i "" = pyLower (l.getD i "") := by
  rw [List.getD_eq_getElem _ _ (by simpa using h),
    List.getD_eq_getElem _ _ h, List.getElem_map]

lemma make_supervisor_first (members : List String) (s : AgentState)
    (h : pyLower (pyStrip s.sender) = "" ∨
      pyLower (pyStrip s.sender) = "system" ∨
      pyLower (pyStrip s.sender) ∉ members.map pyLower) :
    make_supervisor_node members s =
      { goto := Goto.node (members.getD 0 ""),
        update := { sender := some "supervisor" } } := by
  simp only [make_supervisor_node]
  rw [if_pos h]

lemma make_supervisor_step (members : List String)
    (hnd : (members.map pyLower).Nodup)
    (hsys : "system" ∉ members.map pyLower)
    (hemp : "" ∉ members.map pyLower)
    (s : AgentState) (i : Nat) (hi : i < members.length)
    (hs : pyLower (pyStrip s.sender) = (members.map pyLower).getD i "") :
    make_supervisor_node members s =
      if members.length ≤ i + 1 then
        { goto := Goto.halt, update := { sender := some "supervisor" } }
      else
        { goto := Goto.node (members.getD (i + 1) ""),
          update := { sender := some "supervisor" } } := by
  have hlen : i < (members.map pyLower).length := by simpa using hi
  have hmem : pyLower (pyStrip s.sender) ∈ members.map pyLower := by
    rw [hs]; exact getD_mem_of_lt _ i hlen
  have hne : pyLower (pyStrip s.sender) ≠ "" := fun he => hemp (he ▸ hmem)
  have hns : pyLower (pyStrip s.sender) ≠ "system" :=
    fun he => hsys (he ▸ hmem)
  simp only [make_supervisor_node]
  rw [if_neg (by rintro (he | he | hnm); exacts [hne he, hns he, hnm hmem])]
  rw [hs, listIndex_getD _ hnd i hlen]

lemma phaseNext_at (members : List String)
    (hnd : (members.map pyLower).Nodup)
    (hsys : "system" ∉ members.map pyLower)
    (hemp : "" ∉ members.map pyLower)
    (htrim : ∀ m ∈ members, pyStrip m = m)
    (i : Nat) (hi : i < members.length) :
    phaseNext members (members.getD i "") =
      if members.length ≤ i + 1 then none
      else some (members.getD (i + 1) "") := by
  unfold phaseNext
  rw [make_supervisor_step members hnd hsys hemp _ i hi
    (by
      show pyLower (pyStrip (members.getD i "")) = _
      rw [htrim _ (getD_mem_of_lt members i hi),
        map_pyLower_getD members i hi])]
  by_cases hle : members.length ≤ i + 1
  · rw [if_pos hle, if_pos hle]
  · rw [if_neg hle, if_neg hle]

lemma phaseRun_from (members : List String)
    (hnd : (members.map pyLower).Nodup)
    (hsys : "system" ∉ members.map pyLower)
    (hemp : "" ∉ members.map pyLower)
    (htrim : ∀ m ∈ members, pyStrip m = m) :
    ∀ k i : Nat, i < members.length → k = members.length - (i + 1) →
      phaseRun members (members.getD i "") k = members.drop (i + 1) := by
  intro k
  induction k with
  | zero =>
    intro i hi hk
    simp only [phaseRun]
    exact (List.drop_eq_nil_of_le (by omega)).symm
  | succ k ih =>
    intro i hi hk
    have hlt : i + 1 < members.length := by omega
    simp only [phaseRun]
    rw [phaseNext_at members hnd hsys hemp htrim i hi, if_neg (by omega)]
    show members.getD (i + 1) "" ::
      phaseRun members (members.getD (i + 1) "") k = members.drop (i + 1)
    rw [ih (i + 1) hlt (by omega)]
    rw [List.drop_eq_getElem_cons hlt, List.getD_eq_getElem _ _ hlt]

/-- Claim C3: the phase sequencer is a strict sequential cursor: an empty,
system, or unmatched sender routes to the first phase; the sender equal to
phase i with a successor routes to phase i+1; the sender equal to the last
phase terminates; and from an unrecognized sender, length-many completions
visit exactly the phase list in order (no revisits, since the list is
duplicate-free) with the decision after the last phase terminating. -/
theorem phase_sequencer_cursor (members : List String) (s : AgentState)
    (hne : members ≠ [])
    (hnd : (members.map pyLower).Nodup)
    (hsys : "system" ∉ members.map pyLower)
    (hemp : "" ∉ members.map pyLower)
    (htrim : ∀ m ∈ members, pyStrip m = m) :
    ((pyLower (pyStrip s.sender) = "" ∨
        pyLower (pyStrip s.sender) = "system" ∨
        pyLower (pyStrip s.sender) ∉ members.map pyLower) →
      (make_supervisor_node members s).goto = Goto.node (members.getD 0 "")) ∧
    (∀ i : Nat, i + 1 < members.length →
      pyLower (pyStrip s.sender) = (members.map pyLower).getD i "" →
      (make_supervisor_node members s).goto =
        Goto.node (members.getD (i + 1) "")) ∧
    (pyLower (pyStrip s.sender) =
        (members.map pyLower).getD (members.length - 1) "" →
      (make_supervisor_node members s).goto = Goto.halt) ∧
    (∀ s0 : String, pyLower (pyStrip s0) ∉ members.map pyLower →
      phaseRun members s0 members.length = members ∧
      phaseNext members (members.getLast hne) = none) ∧
    members.Nodup := by
  have hpos : 0 < members.length := List.length_pos.mpr hne
  refine ⟨?_, ?_, ?_, ?_, ?_⟩
  · intro h
    rw [make_supervisor_first members s h]
  · intro i hi hs
    rw [make_supervisor_step members hnd hsys hemp s i (by omega) hs,
      if_neg (by omega)]
  · intro hs
    rw [make_supervisor_step members hnd hsys hemp s (members.length - 1)
      (by omega) hs, if_pos (by omega)]
  · intro s0 h0
    constructor
    · obtain ⟨m, hm⟩ : ∃ m, members.length = m + 1 :=
        ⟨members.length - 1, by omega⟩
      rw [hm]
      simp only [phaseRun]
      have hfirst : phaseNext members s0 = some (members.getD 0 "") := by
        unfold phaseNext
        rw [make_supervisor_first members _ (Or.inr (Or.inr h0))]
      rw [hfirst]
      show members.getD 0 "" :: phaseRun members (members.getD 0 "") m =
        members
      rw [phaseRun_from members hnd hsys hemp htrim m 0 hpos (by omega)]
      conv_rhs => rw [← List.drop_zero members,
        List.drop_eq_getElem_cons hpos]
      rw [List.getD_eq_getElem _ _ hpos]
    · have hlast : members.getLast hne = members.getD (members.length - 1)
          "" := by
        rw [List.getLast_eq_getElem,
          List.getD_eq_getElem _ _ (by omega)]
      rw [hlast, phaseNext_at members hnd hsys hemp htrim _ (by omega),
        if_pos (by omega)]
  · exact List.Nodup.of_map pyLower hnd

/-- Witness for C3: the concrete phase list of the pipeline is visited in
order from the system sender, and the sender "trader" advances to "risk". -/
theorem phase_sequencer_cursor_witness :
    phaseRun phaseMembers "system" phaseMembers.length = phaseMembers ∧
    (make_supervisor_node phaseMembers
      { create_initial_state "" "" with sender := "trader" }).goto =
      Goto.node "risk" :=
  ⟨((phase_sequencer_cursor phaseMembers (create_initial_state "" "")
      (by decide) (by decide) (by decide) (by decide) (by decide)).2.2.2.1
      "system" (by decide)).1,
   ((phase_sequencer_cursor phaseMembers
      { create_initial_state "" "" with sender := "trader" }
      (by decide) (by decide) (by decide) (by decide) (by decide)).2.1
      2 (by decide) (by decide)).trans (by decide)⟩
